import Mathlib

/-
Shallow embedding of the SignerAgent from src/src/agent.ts (olekid/signer-js).

Modelling conventions:
- Principals are opaque comparable values, embedded as strings.
- Byte buffers (request ids, arguments, DER public keys, certificates) are
  embedded as lists of naturals.
- The base64 key encoding applied before using a request id as a map or set
  key (Buffer.from(id).toString("base64")) is injective, so the maps and the
  set are keyed directly by the id bytes.
- The string storage keys "delegation-chain-P-B64" and "delegation-identity-P"
  are rendered as a structured key type: the base64 alphabet contains no dash,
  so the string rendering is injective and the structured type is equivalent.
- TextEncoder().encode is an injective encoding of strings into bytes; it is
  embedded as the code-point encoding, which agrees with UTF-8 on every ASCII
  literal the agent uses, and the two decode tests in the source
  (decode(buf) === "request_status", decode(buf) === "replied") are rendered
  as byte-level comparisons with the encoded literal, which is equivalent
  because no other byte sequence decodes to those literals.
- External collaborators (the @dfinity libraries, the signer, the underlying
  HttpAgent transport, cbor decode) are capabilities collected in an Ext
  record; every theorem quantifies over them.
- Asynchronous methods are embedded as state-passing functions returning an
  Except paired with the post state; a thrown error that happens after some
  mutations keeps those mutations in the returned state, exactly as in the
  source.
- The ghostGetDelegationCount field of the state is instrumentation only: it
  counts invocations of the external signer getDelegation capability and is
  touched nowhere else.
-/

namespace SignerJs

abbrev Bytes := List Nat

abbrev Principal := String

/-- Principal.compareTo from @dfinity/principal: a three-way comparison
returning "lt", "eq" or "gt". It returns "eq" exactly on equal principals;
the source only ever tests the result against "eq", so the tie-break used
between "lt" and "gt" is summarized. -/
def principalCompareTo (a b : Principal) : String :=
  if a = b then "eq" else if a.length < b.length then "lt" else "gt"

/-- compare from @dfinity/agent on byte buffers: zero exactly on equal
buffers; the source only ever tests the result against 0, so the nonzero
sign is summarized. -/
def bufferCompare (a b : Bytes) : Int :=
  if a = b then 0 else if a.length < b.length then -1 else 1

/-- TextEncoder().encode, embedded as the code-point encoding (agrees with
UTF-8 bytes on the ASCII literals used by the agent). -/
def utf8 (s : String) : Bytes :=
  s.data.map Char.toNat

/-- Decoded CallRequest content map (cbor decode of the content map returned
by the signer). -/
structure CallRequest where
  request_type : String
  canister_id : Principal
  method_name : String
  arg : Bytes
  sender : Principal
  deriving DecidableEq

/-- Result of signer.callCanister, with the content map already decoded. -/
structure SignerCallResult where
  contentMap : CallRequest
  certificate : Bytes
  deriving DecidableEq

/-- DelegationChain from @dfinity/identity: the delegating public key plus
the subject public keys of the delegation entries (the only chain fields the
agent source reads are publicKey and delegations[..].delegation.pubkey). -/
structure Chain where
  publicKey : Bytes
  delegationPubkeys : List Bytes
  deriving DecidableEq

/-- The base identity kinds handled by the agent: a configured override
identity, an Ed25519KeyIdentity carried by its JSON serialization, and an
ECDSAKeyIdentity carried as an opaque key-pair handle. -/
inductive BaseIdentity where
  | custom (handle : Nat)
  | ed25519 (json : String)
  | ecdsa (handle : Nat)
  deriving DecidableEq

/-- DelegationIdentity.fromDelegation result: base identity wrapped with a
chain. -/
structure DelegationIdentity where
  base : BaseIdentity
  chain : Chain
  deriving DecidableEq

/-- The delegation part of SignerAgentOptions. -/
structure DelegationConfig where
  identity : Option BaseIdentity
  targets : Option (List Principal)
  keyType : Option String
  deriving DecidableEq

/-- SignerAgentOptions: the resolved principal of the caller, the optional
delegation configuration, and the optional storage capability (an opaque
handle). -/
structure SignerAgentOptions where
  getPrincipal : Principal
  delegation : Option DelegationConfig
  storage : Option Nat
  deriving DecidableEq

/-- Structured rendering of the string storage keys built by the agent. -/
inductive StorageKey where
  | delegationChain (principalText : String) (publicKey : Bytes)
  | delegationIdentity (principalText : String)
  deriving DecidableEq

/-- Values held by the storage capability: a string (JSON) or an opaque
CryptoKeyPair handle. -/
inductive StorageValue where
  | str (s : String)
  | keyPair (handle : Nat)
  deriving DecidableEq

/-- SubmitResponse summary: the request id plus the HTTP-ish response
fields the agent constructs or passes through. -/
structure SubmitResponse where
  requestId : Bytes
  status : Nat
  statusText : String
  deriving DecidableEq

/-- ApiQueryResponse summary: status literal and reply argument. The source
reads the reply bytes with a non-null assertion (certificate.lookup(..)!)
which is erased at runtime, so an absent lookup flows through as an absent
payload rather than an error; replyArg is therefore an Option. -/
structure ApiQueryResponse where
  status : String
  replyArg : Option Bytes
  deriving DecidableEq

/-- readState result: either the underlying transport response (opaque
handle) or a cached certified response record. -/
inductive ReadStateResult where
  | fromAgent (handle : Nat)
  | cached (certificate : Bytes)
  deriving DecidableEq

/-- The errors the embedded operations can surface. The first six are the
SignerAgentError values thrown in agent.ts; certificateInvalid stands for
the error thrown by the external Certificate.create verification, and
emptyDelegations for the TypeError raised by
delegations.slice(-1)[0].delegation.pubkey on an empty chain. -/
inductive Err where
  | invalidContentMap
  | readStateNotFound
  | invalidReadStateOptions
  | readStateResponseMissing
  | invalidChainInStorage
  | missingReply
  | certificateInvalid
  | emptyDelegations
  deriving DecidableEq

/-- Which errors are of the distinguished SignerAgentError kind. -/
def Err.isSignerAgentError : Err → Bool
  | .certificateInvalid => false
  | .emptyDelegations => false
  | _ => true

/-- The mutable instance state of a SignerAgent: the certified-response
cache (readStateResponses, storing the certificate bytes), the
delegated-request marker set (delegatedRequestIds), the storage capability
contents, and the instrumentation counter for signer.getDelegation calls. -/
structure AgentState where
  readStateResponses : Bytes → Option Bytes
  delegatedRequestIds : Bytes → Bool
  storage : StorageKey → Option StorageValue
  ghostGetDelegationCount : Nat

/-- External capabilities: the @dfinity library functions, the signer, and
the underlying transport, as consumed by agent.ts. -/
structure Ext where
  pubKeyDer : BaseIdentity → Bytes
  freshEd25519 : String
  freshEcdsa : Nat
  chainFromJSON : String → Chain
  chainToJSON : Chain → String
  isDelegationValid : Chain → Option (List Principal) → Bool
  selfAuthenticating : Bytes → Principal
  requestIdOf : CallRequest → Bytes
  signerGetDelegation : Principal → Bytes → Option (List Principal) → Chain
  signerCallCanister : Principal → Principal → String → Bytes → SignerCallResult
  agentCall : Principal → String → Bytes → DelegationIdentity → SubmitResponse
  agentQuery : Principal → String → Bytes → DelegationIdentity → ApiQueryResponse
  agentReadState : Principal → List (List Bytes) → Option DelegationIdentity → Nat
  agentCreateReadStateRequest : List (List Bytes) → Option DelegationIdentity → Nat
  certVerify : Bytes → Principal → Bool
  certLookup : Bytes → List Bytes → Option Bytes

/-- this.options.delegation?.targets -/
def targetsOf (opts : SignerAgentOptions) : Option (List Principal) :=
  opts.delegation.bind (fun d => d.targets)

/-- The routing condition of call (agent.ts lines 134-140) and query (lines
205-211):

  this.options.delegation &&
    (!this.options.delegation.targets ||
      this.options.delegation.targets.some(
        (target) => target.compareTo(target) === "eq"))

The lambda parameter named target shadows the outer target variable, so the
membership test compares each configured target with itself; the target
parameter of this function is consequently unused, exactly as in the
source. -/
def routesDelegated (delegation : Option DelegationConfig) (target : Principal) : Bool :=
  match delegation with
  | none => false
  | some d =>
    match d.targets with
    | none => true
    | some ts => ts.any (fun target1 => principalCompareTo target1 target1 == "eq")

/-- The routing condition as the spec states it: delegated only when
delegation is configured and either no target restriction is configured or
the requested target is a member of the configured list. Stated for
comparison with routesDelegated. -/
def routesDelegatedSpec (delegation : Option DelegationConfig) (target : Principal) : Bool :=
  match delegation with
  | none => false
  | some d =>
    match d.targets with
    | none => true
    | some ts => ts.any (fun t => principalCompareTo t target == "eq")

/-- The routing condition does not depend on the target (the shadowing bug
makes the target parameter dead), so it can be read off the configuration
alone. -/
def cfgRoutesDelegated (delegation : Option DelegationConfig) : Bool :=
  routesDelegated delegation ""

/-- Updates one storage key (storage.set). -/
def setStorage (s : AgentState) (k : StorageKey) (v : StorageValue) : AgentState :=
  { s with storage := fun k2 => if k2 = k then some v else s.storage k2 }

/-- Adds a delegated-request marker (delegatedRequestIds.add). -/
def addDelegatedMarker (rid : Bytes) (s : AgentState) : AgentState :=
  { s with delegatedRequestIds := fun k => if k = rid then true else s.delegatedRequestIds k }

/-- Removes a delegated-request marker (delegatedRequestIds.delete). -/
def removeDelegatedMarker (rid : Bytes) (s : AgentState) : AgentState :=
  { s with delegatedRequestIds := fun k => if k = rid then false else s.delegatedRequestIds k }

/-- Stores a certified response record (readStateResponses.set). -/
def putReadStateResponse (rid : Bytes) (cert : Bytes) (s : AgentState) : AgentState :=
  { s with readStateResponses := fun k => if k = rid then some cert else s.readStateResponses k }

/-- Evicts a certified response record (readStateResponses.delete). -/
def dropReadStateResponse (rid : Bytes) (s : AgentState) : AgentState :=
  { s with readStateResponses := fun k => if k = rid then none else s.readStateResponses k }

/-- Instrumentation only: counts signer.getDelegation invocations. -/
def bumpGetDelegation (s : AgentState) : AgentState :=
  { s with ghostGetDelegationCount := s.ghostGetDelegationCount + 1 }

/-- createDelegationBaseIdentity (agent.ts lines 345-351). -/
def createDelegationBaseIdentity (opts : SignerAgentOptions) (ext : Ext) : BaseIdentity :=
  if opts.delegation.bind (fun d => d.keyType) = some "Ed25519"
  then .ed25519 ext.freshEd25519
  else .ecdsa ext.freshEcdsa

/-- The storage value persisted for a base identity (agent.ts lines
374-377): an Ed25519KeyIdentity is stored as its JSON string, every other
identity as its key-pair handle. Only generated identities reach this
function in the source. -/
def storedIdentityValue : BaseIdentity → StorageValue
  | .ed25519 json => .str json
  | .ecdsa h => .keyPair h
  | .custom h => .keyPair h

/-- setDelegationBaseIdentity (agent.ts lines 370-379). -/
def setDelegationBaseIdentity (sender : Principal) (id : BaseIdentity) (s : AgentState) : AgentState :=
  setStorage s (.delegationIdentity sender) (storedIdentityValue id)

/-- getDelegationBaseIdentity (agent.ts lines 353-368). -/
def getDelegationBaseIdentity (opts : SignerAgentOptions) (ext : Ext) (sender : Principal)
    (s : AgentState) : BaseIdentity × AgentState :=
  match opts.delegation.bind (fun d => d.identity) with
  | some id => (id, s)
  | none =>
    match s.storage (.delegationIdentity sender) with
    | none =>
      (createDelegationBaseIdentity opts ext,
       setDelegationBaseIdentity sender (createDelegationBaseIdentity opts ext) s)
    | some (.str v) => (.ed25519 v, s)
    | some (.keyPair h) => (.ecdsa h, s)

/-- setDelegationChain (agent.ts lines 338-343): stores the chain JSON under
the key derived from the returned chain (self-authenticating principal of
the delegating key, subject public key of the terminal delegation). An
empty delegations list makes the source crash on slice(-1)[0]. -/
def setDelegationChain (ext : Ext) (c : Chain) (s : AgentState) : Except Err AgentState :=
  match c.delegationPubkeys.getLast? with
  | none => .error .emptyDelegations
  | some lastPk =>
    .ok (setStorage s (.delegationChain (ext.selfAuthenticating c.publicKey) lastPk)
          (.str (ext.chainToJSON c)))

/-- The renewal branch of getDelegationChain: request a fresh chain from the
signer (counted by the instrumentation field), store it, return it. -/
def requestNewDelegationChain (opts : SignerAgentOptions) (ext : Ext) (principal : Principal)
    (publicKey : Bytes) (s : AgentState) : Except Err Chain × AgentState :=
  let c := ext.signerGetDelegation principal publicKey (targetsOf opts)
  let s1 := bumpGetDelegation s
  match setDelegationChain ext c s1 with
  | .error e => (.error e, s1)
  | .ok s2 => (.ok c, s2)

/-- getDelegationChain (agent.ts lines 311-336). -/
def getDelegationChain (opts : SignerAgentOptions) (ext : Ext) (principal : Principal)
    (publicKey : Bytes) (s : AgentState) : Except Err Chain × AgentState :=
  match s.storage (.delegationChain principal publicKey) with
  | some (.keyPair _) => (.error .invalidChainInStorage, s)
  | some (.str j) =>
    if ext.isDelegationValid (ext.chainFromJSON j) (targetsOf opts)
    then (.ok (ext.chainFromJSON j), s)
    else requestNewDelegationChain opts ext principal publicKey s
  | none => requestNewDelegationChain opts ext principal publicKey s

/-- getDelegationIdentity (agent.ts lines 107-119): nothing when delegation
is not configured; otherwise wraps the base identity with the obtained
chain. getDelegationChain always produces a chain when it returns normally,
so the configured case always yields an identity. -/
def getDelegationIdentity (opts : SignerAgentOptions) (ext : Ext) (principal : Principal)
    (s : AgentState) : Except Err (Option DelegationIdentity) × AgentState :=
  match opts.delegation with
  | none => (.ok none, s)
  | some _ =>
    let bs := getDelegationBaseIdentity opts ext principal s
    match getDelegationChain opts ext principal (ext.pubKeyDer bs.1) bs.2 with
    | (.error e, s2) => (.error e, s2)
    | (.ok chain, s2) => (.ok (some ⟨bs.1, chain⟩), s2)

/-- The content-map validation of call (agent.ts lines 163-169), in source
order: request type, target canister, method name, argument bytes,
sender. -/
def contentMapMismatch (target : Principal) (methodName : String) (arg : Bytes)
    (sender : Principal) (rb : CallRequest) : Bool :=
  (rb.request_type != "call") ||
  (principalCompareTo target rb.canister_id != "eq") ||
  (methodName != rb.method_name) ||
  (bufferCompare arg rb.arg != 0) ||
  (principalCompareTo sender rb.sender != "eq")

/-- The signer branch of call (agent.ts lines 155-186). -/
def signerCallPath (ext : Ext) (target : Principal) (methodName : String) (arg : Bytes)
    (sender : Principal) (s : AgentState) : Except Err SubmitResponse × AgentState :=
  let r := ext.signerCallCanister target sender methodName arg
  if contentMapMismatch target methodName arg sender r.contentMap
  then (.error .invalidContentMap, s)
  else
    (.ok { requestId := ext.requestIdOf r.contentMap, status := 200,
           statusText := "Call has been sent over ICRC-25 JSON-RPC" },
     putReadStateResponse (ext.requestIdOf r.contentMap) r.certificate s)

/-- call (agent.ts lines 121-186). -/
def call (opts : SignerAgentOptions) (ext : Ext) (canisterId : Principal) (methodName : String)
    (arg : Bytes) (s : AgentState) : Except Err SubmitResponse × AgentState :=
  let sender := opts.getPrincipal
  let target := canisterId
  if routesDelegated opts.delegation target then
    match getDelegationIdentity opts ext sender s with
    | (.error e, s1) => (.error e, s1)
    | (.ok (some di), s1) =>
      let resp := ext.agentCall target methodName arg di
      (.ok resp, addDelegatedMarker resp.requestId s1)
    | (.ok none, s1) => signerCallPath ext target methodName arg sender s1
  else signerCallPath ext target methodName arg sender s

/-- The query-upgrade-to-call branch of query (agent.ts lines 218-257). -/
def signerQueryPath (opts : SignerAgentOptions) (ext : Ext) (canisterId : Principal)
    (methodName : String) (arg : Bytes) (s : AgentState) :
    Except Err ApiQueryResponse × AgentState :=
  match call opts ext canisterId methodName arg s with
  | (.error e, s1) => (.error e, s1)
  | (.ok resp, s1) =>
    match s1.readStateResponses resp.requestId with
    | none => (.error .readStateNotFound, s1)
    | some cert =>
      let s2 := dropReadStateResponse resp.requestId s1
      if ext.certVerify cert canisterId then
        if ext.certLookup cert [utf8 "request_status", resp.requestId, utf8 "status"]
            = some (utf8 "replied")
        then (.ok { status := "replied",
                    replyArg := ext.certLookup cert
                      [utf8 "request_status", resp.requestId, utf8 "reply"] }, s2)
        else (.error .missingReply, s2)
      else (.error .certificateInvalid, s2)

/-- query (agent.ts lines 196-257). -/
def query (opts : SignerAgentOptions) (ext : Ext) (canisterId : Principal) (methodName : String)
    (arg : Bytes) (s : AgentState) : Except Err ApiQueryResponse × AgentState :=
  let sender := opts.getPrincipal
  let target := canisterId
  if routesDelegated opts.delegation target then
    match getDelegationIdentity opts ext sender s with
    | (.error e, s1) => (.error e, s1)
    | (.ok (some di), s1) => (.ok (ext.agentQuery canisterId methodName arg di), s1)
    | (.ok none, s1) => signerQueryPath opts ext canisterId methodName arg s1
  else signerQueryPath opts ext canisterId methodName arg s

/-- requestIdFromReadStateOptions (agent.ts lines 381-390): exactly one path
of exactly two segments whose first segment decodes to "request_status". -/
def requestIdFromReadStateOptions (paths : List (List Bytes)) : Option Bytes :=
  match paths with
  | [p] =>
    match p with
    | [seg0, seg1] => if seg0 = utf8 "request_status" then some seg1 else none
    | _ => none
  | _ => none

/-- readState (agent.ts lines 277-305). -/
def readState (opts : SignerAgentOptions) (ext : Ext) (canisterId : Principal)
    (paths : List (List Bytes)) (s : AgentState) : Except Err ReadStateResult × AgentState :=
  match requestIdFromReadStateOptions paths with
  | none => (.error .invalidReadStateOptions, s)
  | some rid =>
    if s.delegatedRequestIds rid then
      let s1 := removeDelegatedMarker rid s
      match getDelegationIdentity opts ext opts.getPrincipal s1 with
      | (.error e, s2) => (.error e, s2)
      | (.ok odi, s2) => (.ok (.fromAgent (ext.agentReadState canisterId paths odi)), s2)
    else
      match s.readStateResponses rid with
      | none => (.error .readStateResponseMissing, s)
      | some cert => (.ok (.cached cert), dropReadStateResponse rid s)

/-- createReadStateRequest (agent.ts lines 259-275): forwards to the
underlying transport for marked delegated requests (without clearing the
marker), implicitly returns undefined otherwise. -/
def createReadStateRequest (opts : SignerAgentOptions) (ext : Ext) (paths : List (List Bytes))
    (s : AgentState) : Except Err (Option Nat) × AgentState :=
  match requestIdFromReadStateOptions paths with
  | none => (.error .invalidReadStateOptions, s)
  | some rid =>
    if s.delegatedRequestIds rid then
      match getDelegationIdentity opts ext opts.getPrincipal s with
      | (.error e, s1) => (.error e, s1)
      | (.ok odi, s1) => (.ok (some (ext.agentCreateReadStateRequest paths odi)), s1)
    else (.ok none, s)

/-- Which storage capability backs the agent instance. -/
inductive StorageChoice where
  | suppliedStorage (handle : Nat)
  | idbStorage
  deriving DecidableEq

/-- The constructor assignment in agent.ts line 100:
this.storage = new IdbStorage(); — the supplied options.storage is never
consulted. -/
def constructedStorage (_o : SignerAgentOptions) : StorageChoice :=
  .idbStorage

/-- The storage selection documented for the options (storage is optional,
IdbStorage is the default), stated for comparison with constructedStorage. -/
def documentedStorageChoice (o : SignerAgentOptions) : StorageChoice :=
  match o.storage with
  | some h => .suppliedStorage h
  | none => .idbStorage

/-- A fresh agent instance over a given initial storage content: both the
certified-response cache and the delegated-request marker set start
empty. -/
def initialState (σ : StorageKey → Option StorageValue) : AgentState :=
  { readStateResponses := fun _ => none
    delegatedRequestIds := fun _ => false
    storage := σ
    ghostGetDelegationCount := 0 }

/-- A fresh agent instance over empty storage. -/
def emptyState : AgentState :=
  initialState (fun _ => none)

/-- One public operation of the agent, as an external observer can trigger
it: any arguments and any behavior of the external capabilities. -/
inductive Step (opts : SignerAgentOptions) : AgentState → AgentState → Prop where
  | call (ext : Ext) (c : Principal) (m : String) (a : Bytes) (s : AgentState) :
      Step opts s (call opts ext c m a s).2
  | query (ext : Ext) (c : Principal) (m : String) (a : Bytes) (s : AgentState) :
      Step opts s (query opts ext c m a s).2
  | readState (ext : Ext) (c : Principal) (paths : List (List Bytes)) (s : AgentState) :
      Step opts s (readState opts ext c paths s).2
  | createReadStateRequest (ext : Ext) (paths : List (List Bytes)) (s : AgentState) :
      Step opts s (createReadStateRequest opts ext paths s).2

/-- States reachable by any sequence of public operations from a fresh
instance. -/
inductive Reachable (opts : SignerAgentOptions) : AgentState → Prop where
  | init (σ : StorageKey → Option StorageValue) : Reachable opts (initialState σ)
  | step {s s1 : AgentState} : Reachable opts s → Step opts s s1 → Reachable opts s1

/-- The certified-response cache holds nothing. -/
def CacheEmpty (s : AgentState) : Prop :=
  ∀ k, s.readStateResponses k = none

/-- The delegated-request marker set holds nothing. -/
def MarkersEmpty (s : AgentState) : Prop :=
  ∀ k, s.delegatedRequestIds k = false

/-- Concrete capability bundle used by the witnesses: the signer echoes the
requested call back (a matching content map), every certificate verifies,
and the canonical request id of every content map is [9], whose certificate
carries status replied and reply [42]. -/
def ext1 : Ext :=
  { pubKeyDer := fun _ => [1]
    freshEd25519 := "seed"
    freshEcdsa := 0
    chainFromJSON := fun _ => { publicKey := [2], delegationPubkeys := [[3]] }
    chainToJSON := fun _ => "chain"
    isDelegationValid := fun _ _ => true
    selfAuthenticating := fun _ => "self"
    requestIdOf := fun _ => [9]
    signerGetDelegation := fun _ _ _ => { publicKey := [2], delegationPubkeys := [[3]] }
    signerCallCanister := fun cid sender method arg =>
      { contentMap := { request_type := "call", canister_id := cid, method_name := method,
                        arg := arg, sender := sender },
        certificate := [7] }
    agentCall := fun _ _ _ _ => { requestId := [5], status := 202, statusText := "accepted" }
    agentQuery := fun _ _ _ _ => { status := "replied", replyArg := some [1] }
    agentReadState := fun _ _ _ => 0
    agentCreateReadStateRequest := fun _ _ => 0
    certVerify := fun _ _ => true
    certLookup := fun _ path =>
      if path = [utf8 "request_status", [9], utf8 "status"] then some (utf8 "replied")
      else if path = [utf8 "request_status", [9], utf8 "reply"] then some [42]
      else none }

/-- Capability bundle identical to ext1 except that the certificate carries
status replied with no reply payload stored. -/
def extNoReply : Ext :=
  { ext1 with
    certLookup := fun _ path =>
      if path = [utf8 "request_status", [9], utf8 "status"] then some (utf8 "replied")
      else none }

/-- Capability bundle identical to ext1 except that certificate lookups
find nothing at all (in particular no status). -/
def extNoStatus : Ext :=
  { ext1 with certLookup := fun _ _ => none }

/-- Capability bundle identical to ext1 except that the signer returns a
content map with a different method name. -/
def extMismatch : Ext :=
  { ext1 with
    signerCallCanister := fun cid sender _ arg =>
      { contentMap := { request_type := "call", canister_id := cid, method_name := "other",
                        arg := arg, sender := sender },
        certificate := [7] } }

/-- Options with no delegation configured: every call and query is forced
through the signer. -/
def optsNone : SignerAgentOptions :=
  { getPrincipal := "caller", delegation := none, storage := none }

/-- Options with a delegation target restriction that does not contain the
canister used by the concrete theorems. -/
def optsScoped : SignerAgentOptions :=
  { getPrincipal := "caller"
    delegation := some { identity := none, targets := some ["bbbbb-bb"], keyType := none }
    storage := some 7 }

/-! Basic lemmas about the comparison helpers and the validation check. -/

lemma principalCompareTo_eq_iff (a b : Principal) :
    principalCompareTo a b = "eq" ↔ a = b := by
  unfold principalCompareTo
  split
  · simp_all
  · split <;> simp_all

lemma bufferCompare_eq_zero_iff (a b : Bytes) :
    bufferCompare a b = 0 ↔ a = b := by
  unfold bufferCompare
  split
  · simp_all
  · split <;> simp_all

lemma contentMapMismatch_eq_false_iff (target : Principal) (methodName : String) (arg : Bytes)
    (sender : Principal) (rb : CallRequest) :
    contentMapMismatch target methodName arg sender rb = false ↔
      (rb.request_type = "call" ∧ rb.canister_id = target ∧ rb.method_name = methodName ∧
       rb.arg = arg ∧ rb.sender = sender) := by
  constructor
  · intro h
    unfold contentMapMismatch at h
    simp only [Bool.or_eq_false_iff, bne_eq_false_iff_eq, principalCompareTo_eq_iff,
      bufferCompare_eq_zero_iff] at h
    exact ⟨h.1.1.1.1, h.1.1.1.2.symm, h.1.1.2.symm, h.1.2.symm, h.2.symm⟩
  · rintro ⟨h1, h2, h3, h4, h5⟩
    unfold contentMapMismatch
    simp only [Bool.or_eq_false_iff, bne_eq_false_iff_eq, principalCompareTo_eq_iff,
      bufferCompare_eq_zero_iff]
    exact ⟨⟨⟨⟨h1, h2.symm⟩, h3.symm⟩, h4.symm⟩, h5.symm⟩

/-- When the decoded content map matches the request, the signer branch of
call succeeds with the canonical request id of the content map and caches
the certificate under that id. -/
lemma call_signer_ok (opts : SignerAgentOptions) (ext : Ext) (c : Principal) (m : String)
    (a : Bytes) (s : AgentState) (rb : CallRequest) (cert : Bytes)
    (hroute : routesDelegated opts.delegation c = false)
    (hsig : ext.signerCallCanister c opts.getPrincipal m a = ⟨rb, cert⟩)
    (ht : rb.request_type = "call") (hc : rb.canister_id = c) (hm : rb.method_name = m)
    (ha : rb.arg = a) (hs : rb.sender = opts.getPrincipal) :
    call opts ext c m a s =
      (.ok { requestId := ext.requestIdOf rb, status := 200,
             statusText := "Call has been sent over ICRC-25 JSON-RPC" },
       putReadStateResponse (ext.requestIdOf rb) cert s) := by
  have hmm : contentMapMismatch c m a opts.getPrincipal rb = false :=
    (contentMapMismatch_eq_false_iff c m a opts.getPrincipal rb).2 ⟨ht, hc, hm, ha, hs⟩
  simp [call, signerCallPath, hroute, hsig, hmm]

/-- When the decoded content map does not match the request, the signer
branch of call fails with the invalid-content-map error and the state is
returned untouched. -/
lemma call_signer_mismatch (opts : SignerAgentOptions) (ext : Ext) (c : Principal) (m : String)
    (a : Bytes) (s : AgentState) (rb : CallRequest) (cert : Bytes)
    (hroute : routesDelegated opts.delegation c = false)
    (hsig : ext.signerCallCanister c opts.getPrincipal m a = ⟨rb, cert⟩)
    (hmm : rb.request_type ≠ "call" ∨ rb.canister_id ≠ c ∨ rb.method_name ≠ m ∨
           rb.arg ≠ a ∨ rb.sender ≠ opts.getPrincipal) :
    call opts ext c m a s = (.error .invalidContentMap, s) := by
  have hb : contentMapMismatch c m a opts.getPrincipal rb = true := by
    cases hcm : contentMapMismatch c m a opts.getPrincipal rb
    · exfalso
      rcases (contentMapMismatch_eq_false_iff c m a opts.getPrincipal rb).1 hcm with
        ⟨h1, h2, h3, h4, h5⟩
      rcases hmm with h | h | h | h | h
      · exact h h1
      · exact h h2
      · exact h h3
      · exact h h4
      · exact h h5
    · rfl
  simp [call, signerCallPath, hroute, hsig, hb]

/-! The delegation layer only touches the storage (and the instrumentation
counter): it never mutates the certified-response cache or the
delegated-request marker set. -/

lemma getDelegationBaseIdentity_preserves (opts : SignerAgentOptions) (ext : Ext)
    (sender : Principal) (s : AgentState) :
    (getDelegationBaseIdentity opts ext sender s).2.readStateResponses = s.readStateResponses ∧
    (getDelegationBaseIdentity opts ext sender s).2.delegatedRequestIds = s.delegatedRequestIds := by
  unfold getDelegationBaseIdentity
  split
  · exact ⟨rfl, rfl⟩
  · split
    · exact ⟨rfl, rfl⟩
    · exact ⟨rfl, rfl⟩
    · exact ⟨rfl, rfl⟩

lemma setDelegationChain_preserves (ext : Ext) (c : Chain) (s s2 : AgentState)
    (h : setDelegationChain ext c s = .ok s2) :
    s2.readStateResponses = s.readStateResponses ∧
    s2.delegatedRequestIds = s.delegatedRequestIds := by
  unfold setDelegationChain at h
  split at h
  · exact absurd h (by simp)
  · cases h
    exact ⟨rfl, rfl⟩

lemma requestNewDelegationChain_preserves (opts : SignerAgentOptions) (ext : Ext)
    (principal : Principal) (publicKey : Bytes) (s : AgentState) :
    (requestNewDelegationChain opts ext principal publicKey s).2.readStateResponses
      = s.readStateResponses ∧
    (requestNewDelegationChain opts ext principal publicKey s).2.delegatedRequestIds
      = s.delegatedRequestIds := by
  simp only [requestNewDelegationChain]
  split
  · exact ⟨rfl, rfl⟩
  · rename_i s2 heq
    exact ⟨(setDelegationChain_preserves ext _ _ s2 heq).1,
           (setDelegationChain_preserves ext _ _ s2 heq).2⟩

lemma getDelegationChain_preserves (opts : SignerAgentOptions) (ext : Ext)
    (principal : Principal) (publicKey : Bytes) (s : AgentState) :
    (getDelegationChain opts ext principal publicKey s).2.readStateResponses
      = s.readStateResponses ∧
    (getDelegationChain opts ext principal publicKey s).2.delegatedRequestIds
      = s.delegatedRequestIds := by
  unfold getDelegationChain
  split
  · exact ⟨rfl, rfl⟩
  · split
    · exact ⟨rfl, rfl⟩
    · exact requestNewDelegationChain_preserves opts ext principal publicKey s
  · exact requestNewDelegationChain_preserves opts ext principal publicKey s

lemma getDelegationIdentity_preserves (opts : SignerAgentOptions) (ext : Ext)
    (principal : Principal) (s : AgentState) :
    (getDelegationIdentity opts ext principal s).2.readStateResponses = s.readStateResponses ∧
    (getDelegationIdentity opts ext principal s).2.delegatedRequestIds = s.delegatedRequestIds := by
  cases hd : opts.delegation with
  | none => simp [getDelegationIdentity, hd]
  | some d =>
    have hbase := getDelegationBaseIdentity_preserves opts ext principal s
    have hchain := getDelegationChain_preserves opts ext principal
      (ext.pubKeyDer (getDelegationBaseIdentity opts ext principal s).1)
      (getDelegationBaseIdentity opts ext principal s).2
    simp only [getDelegationIdentity, hd]
    rcases hgc : getDelegationChain opts ext principal
      (ext.pubKeyDer (getDelegationBaseIdentity opts ext principal s).1)
      (getDelegationBaseIdentity opts ext principal s).2 with ⟨r, s2⟩
    rw [hgc] at hchain
    cases r <;> exact ⟨hchain.1.trans hbase.1, hchain.2.trans hbase.2⟩

/-- The only way getDelegationIdentity can report no identity is when no
delegation is configured. -/
lemma getDelegationIdentity_none (opts : SignerAgentOptions) (ext : Ext)
    (principal : Principal) (s : AgentState)
    (h : (getDelegationIdentity opts ext principal s).1 = .ok none) :
    opts.delegation = none := by
  cases hd : opts.delegation with
  | none => rfl
  | some d =>
    exfalso
    simp only [getDelegationIdentity, hd] at h
    rcases hgc : getDelegationChain opts ext principal
      (ext.pubKeyDer (getDelegationBaseIdentity opts ext principal s).1)
      (getDelegationBaseIdentity opts ext principal s).2 with ⟨r, s2⟩
    rw [hgc] at h
    cases r <;> simp at h

/-- Claim C1: the claim states the delegated path is attempted only if
delegation is configured and (no target restriction is configured or the
target is a member of the configured set). The code violates this: with a
configured targets list ["bbbbb-bb"] and requested target "aaaaa-aa" (not a
member, as routesDelegatedSpec computes), the routing condition is still
true because the shadowed lambda parameter makes the membership test
compare each configured target with itself, so both call and query take the
delegated transport (marker added, transport response returned) instead of
the signer. -/
theorem claim_C1_targets_ignored :
    routesDelegated optsScoped.delegation "aaaaa-aa" = true ∧
    routesDelegatedSpec optsScoped.delegation "aaaaa-aa" = false ∧
    (call optsScoped ext1 "aaaaa-aa" "m" [1] emptyState).1
      = .ok { requestId := [5], status := 202, statusText := "accepted" } ∧
    (call optsScoped ext1 "aaaaa-aa" "m" [1] emptyState).2.delegatedRequestIds [5] = true ∧
    (query optsScoped ext1 "aaaaa-aa" "m" [1] emptyState).1
      = .ok { status := "replied", replyArg := some [1] } := by
  refine ⟨by decide, by decide, by rfl, by decide, by rfl⟩

/-- Claim C10: the claim states that a supplied storage capability is used
for every cached read and write. The constructor ignores options.storage
and always installs a fresh IdbStorage: with storage = some 7 supplied, the
constructed choice is still the default, unlike the documented choice. -/
theorem claim_C10_storage_ignored :
    optsScoped.storage = some 7 ∧
    constructedStorage optsScoped = StorageChoice.idbStorage ∧
    documentedStorageChoice optsScoped = StorageChoice.suppliedStorage 7 := by
  refine ⟨rfl, rfl, rfl⟩

/-- Claim C2: for every call routed through the external signer whose
returned content map matches the request (request type "call", same target
canister, method name, argument bytes and sender), the returned request
identifier equals the canonical identifier computed from the validated
content map, and the certificate returned by the signer is stored in the
certified-response cache keyed by that identifier. -/
theorem claim_C2_signer_call_id (opts : SignerAgentOptions) (ext : Ext) (c : Principal)
    (m : String) (a : Bytes) (s : AgentState) (rb : CallRequest) (cert : Bytes)
    (hroute : routesDelegated opts.delegation c = false)
    (hsig : ext.signerCallCanister c opts.getPrincipal m a = ⟨rb, cert⟩)
    (ht : rb.request_type = "call") (hc : rb.canister_id = c) (hm : rb.method_name = m)
    (ha : rb.arg = a) (hs : rb.sender = opts.getPrincipal) :
    (call opts ext c m a s).1
      = .ok { requestId := ext.requestIdOf rb, status := 200,
              statusText := "Call has been sent over ICRC-25 JSON-RPC" } ∧
    (call opts ext c m a s).2.readStateResponses (ext.requestIdOf rb) = some cert := by
  rw [call_signer_ok opts ext c m a s rb cert hroute hsig ht hc hm ha hs]
  exact ⟨rfl, by simp [putReadStateResponse]⟩

theorem claim_C2_signer_call_id_witness :
    (call optsNone ext1 "canister" "m" [1] emptyState).1
      = .ok { requestId := [9], status := 200,
              statusText := "Call has been sent over ICRC-25 JSON-RPC" } ∧
    (call optsNone ext1 "canister" "m" [1] emptyState).2.readStateResponses [9] = some [7] :=
  claim_C2_signer_call_id optsNone ext1 "canister" "m" [1] emptyState
    ⟨"call", "canister", "m", [1], "caller"⟩ [7]
    (by decide) (by decide) rfl rfl rfl rfl rfl

/-- Claim C3: for every call routed through the external signer, if the
decoded content map differs from the request in request type, target
canister, method name, argument bytes or sender, then call fails with the
distinguished SignerAgentError and the whole state (in particular the
certified-response cache and the delegated-request marker set) is returned
unchanged, before any request identifier is computed. -/
theorem claim_C3_signer_call_mismatch (opts : SignerAgentOptions) (ext : Ext) (c : Principal)
    (m : String) (a : Bytes) (s : AgentState) (rb : CallRequest) (cert : Bytes)
    (hroute : routesDelegated opts.delegation c = false)
    (hsig : ext.signerCallCanister c opts.getPrincipal m a = ⟨rb, cert⟩)
    (hmm : rb.request_type ≠ "call" ∨ rb.canister_id ≠ c ∨ rb.method_name ≠ m ∨
           rb.arg ≠ a ∨ rb.sender ≠ opts.getPrincipal) :
    call opts ext c m a s = (.error .invalidContentMap, s) ∧
    Err.isSignerAgentError .invalidContentMap = true :=
  ⟨call_signer_mismatch opts ext c m a s rb cert hroute hsig hmm, rfl⟩

theorem claim_C3_signer_call_mismatch_witness :
    call optsNone extMismatch "canister" "m" [1] emptyState
      = (.error .invalidContentMap, emptyState) ∧
    Err.isSignerAgentError .invalidContentMap = true :=
  claim_C3_signer_call_mismatch optsNone extMismatch "canister" "m" [1] emptyState
    ⟨"call", "canister", "other", [1], "caller"⟩ [7]
    (by decide) (by decide) (Or.inr (Or.inr (Or.inl (by decide))))

/-- Claim C7: request-identifier extraction succeeds exactly when the
options hold exactly one path of exactly two segments whose first segment
is the encoding of the literal "request_status", the identifier being the
second segment; in every other shape no identifier is found, and readState
as well as createReadStateRequest then fail with the invalid-input error
instead of crashing. -/
theorem claim_C7_request_id_extraction (paths : List (List Bytes)) :
    (∀ rid, requestIdFromReadStateOptions paths = some rid ↔
       paths = [[utf8 "request_status", rid]]) ∧
    (requestIdFromReadStateOptions paths = none →
      ∀ (opts : SignerAgentOptions) (ext : Ext) (c : Principal) (s : AgentState),
        readState opts ext c paths s = (.error .invalidReadStateOptions, s) ∧
        createReadStateRequest opts ext paths s = (.error .invalidReadStateOptions, s) ∧
        Err.isSignerAgentError .invalidReadStateOptions = true) := by
  constructor
  · intro rid
    constructor
    · intro h
      rcases paths with _ | ⟨p, ps⟩
      · exact Option.noConfusion h
      · rcases ps with _ | ⟨q, qs⟩
        · rcases p with _ | ⟨a, as⟩
          · exact Option.noConfusion h
          · rcases as with _ | ⟨b, bs⟩
            · exact Option.noConfusion h
            · rcases bs with _ | ⟨e, es⟩
              · by_cases hab : a = utf8 "request_status"
                · have hsome : some b = some rid := by
                    simpa [requestIdFromReadStateOptions, hab] using h
                  cases hsome
                  rw [hab]
                · have hbad : (none : Option Bytes) = some rid := by
                    simpa [requestIdFromReadStateOptions, hab] using h
                  exact Option.noConfusion hbad
              · exact Option.noConfusion h
        · exact Option.noConfusion h
    · intro h
      subst h
      simp [requestIdFromReadStateOptions]
  · intro hnone opts ext c s
    refine ⟨?_, ?_, rfl⟩
    · simp [readState, hnone]
    · simp [createReadStateRequest, hnone]

theorem claim_C7_request_id_extraction_witness :
    (requestIdFromReadStateOptions [[utf8 "bad", [1], [2]]] = some [1] ↔
       [[utf8 "bad", [1], [2]]] = [[utf8 "request_status", [1]]]) ∧
    readState optsNone ext1 "c" [[utf8 "bad", [1], [2]]] emptyState
      = (.error .invalidReadStateOptions, emptyState) ∧
    createReadStateRequest optsNone ext1 [[utf8 "bad", [1], [2]]] emptyState
      = (.error .invalidReadStateOptions, emptyState) :=
  ⟨(claim_C7_request_id_extraction [[utf8 "bad", [1], [2]]]).1 [1],
   ((claim_C7_request_id_extraction [[utf8 "bad", [1], [2]]]).2 (by decide)
      optsNone ext1 "c" emptyState).1,
   ((claim_C7_request_id_extraction [[utf8 "bad", [1], [2]]]).2 (by decide)
      optsNone ext1 "c" emptyState).2.1⟩

/-- The signer-routed query with a matching content map reaches the
certificate checks over the state with the fresh record evicted again. -/
lemma query_signer_resolved (opts : SignerAgentOptions) (ext : Ext) (c : Principal)
    (m : String) (a : Bytes) (s : AgentState) (rb : CallRequest) (cert : Bytes)
    (hroute : routesDelegated opts.delegation c = false)
    (hsig : ext.signerCallCanister c opts.getPrincipal m a = ⟨rb, cert⟩)
    (ht : rb.request_type = "call") (hc : rb.canister_id = c) (hm : rb.method_name = m)
    (ha : rb.arg = a) (hs : rb.sender = opts.getPrincipal)
    (hverify : ext.certVerify cert c = true) :
    query opts ext c m a s =
      (if ext.certLookup cert [utf8 "request_status", ext.requestIdOf rb, utf8 "status"]
          = some (utf8 "replied")
       then (.ok { status := "replied",
                   replyArg := ext.certLookup cert
                     [utf8 "request_status", ext.requestIdOf rb, utf8 "reply"] },
             dropReadStateResponse (ext.requestIdOf rb)
               (putReadStateResponse (ext.requestIdOf rb) cert s))
       else (.error .missingReply,
             dropReadStateResponse (ext.requestIdOf rb)
               (putReadStateResponse (ext.requestIdOf rb) cert s))) := by
  have hcall := call_signer_ok opts ext c m a s rb cert hroute hsig ht hc hm ha hs
  simp [query, hroute, signerQueryPath, hcall, putReadStateResponse, hverify]

/-- Claim C4: a query routed through the external signer whose certificate
verifies and carries status "replied" returns exactly the bytes stored at
the reply path, evicts the certified response record, and a subsequent
readState for the same request identifier (not marked delegated) fails with
the missing-correlation error. -/
theorem claim_C4_query_replied (opts : SignerAgentOptions) (ext ext2 : Ext) (c c2 : Principal)
    (m : String) (a : Bytes) (s : AgentState) (rb : CallRequest) (cert replyBytes : Bytes)
    (hroute : routesDelegated opts.delegation c = false)
    (hsig : ext.signerCallCanister c opts.getPrincipal m a = ⟨rb, cert⟩)
    (ht : rb.request_type = "call") (hc : rb.canister_id = c) (hm : rb.method_name = m)
    (ha : rb.arg = a) (hs : rb.sender = opts.getPrincipal)
    (hverify : ext.certVerify cert c = true)
    (hstatus : ext.certLookup cert
        [utf8 "request_status", ext.requestIdOf rb, utf8 "status"] = some (utf8 "replied"))
    (hreply : ext.certLookup cert
        [utf8 "request_status", ext.requestIdOf rb, utf8 "reply"] = some replyBytes)
    (hnomark : s.delegatedRequestIds (ext.requestIdOf rb) = false) :
    (query opts ext c m a s).1 = .ok { status := "replied", replyArg := some replyBytes } ∧
    (query opts ext c m a s).2.readStateResponses (ext.requestIdOf rb) = none ∧
    (readState opts ext2 c2 [[utf8 "request_status", ext.requestIdOf rb]]
        (query opts ext c m a s).2).1 = .error .readStateResponseMissing := by
  have hq := query_signer_resolved opts ext c m a s rb cert hroute hsig ht hc hm ha hs hverify
  rw [hstatus] at hq
  rw [if_pos rfl] at hq
  rw [hreply] at hq
  have hpaths : requestIdFromReadStateOptions [[utf8 "request_status", ext.requestIdOf rb]]
      = some (ext.requestIdOf rb) := by
    simp [requestIdFromReadStateOptions]
  refine ⟨by rw [hq], ?_, ?_⟩
  · rw [hq]
    simp [dropReadStateResponse]
  · rw [hq]
    have hmk : (dropReadStateResponse (ext.requestIdOf rb)
        (putReadStateResponse (ext.requestIdOf rb) cert s)).delegatedRequestIds
          (ext.requestIdOf rb) = false := hnomark
    have hc3 : (dropReadStateResponse (ext.requestIdOf rb)
        (putReadStateResponse (ext.requestIdOf rb) cert s)).readStateResponses
          (ext.requestIdOf rb) = none := by
      simp [dropReadStateResponse]
    simp [readState, hpaths, hmk, hc3]

theorem claim_C4_query_replied_witness :
    (query optsNone ext1 "canister" "m" [1] emptyState).1
      = .ok { status := "replied", replyArg := some [42] } ∧
    (query optsNone ext1 "canister" "m" [1] emptyState).2.readStateResponses [9] = none ∧
    (readState optsNone ext1 "c2" [[utf8 "request_status", [9]]]
        (query optsNone ext1 "canister" "m" [1] emptyState).2).1
      = .error .readStateResponseMissing :=
  claim_C4_query_replied optsNone ext1 ext1 "canister" "c2" "m" [1] emptyState
    ⟨"call", "canister", "m", [1], "caller"⟩ [7] [42]
    (by decide) (by decide) rfl rfl rfl rfl rfl (by decide) (by decide) (by decide) (by decide)

/-- Claim C5, counterexample to the claim as stated: the claim says that a
signer-routed query whose reply payload is absent fails with a thrown
error. Here the certificate verifies, the status at the status path is the
literal "replied", the reply path holds nothing, and query returns a
successful response (with an absent payload) instead of failing: the
non-null assertion in the source is erased at runtime. -/
theorem claim_C5_counterexample :
    extNoReply.certVerify [7] "canister" = true ∧
    extNoReply.certLookup [7] [utf8 "request_status", [9], utf8 "status"]
      = some (utf8 "replied") ∧
    extNoReply.certLookup [7] [utf8 "request_status", [9], utf8 "reply"] = none ∧
    (query optsNone extNoReply "canister" "m" [1] emptyState).1
      = .ok { status := "replied", replyArg := none } := by
  refine ⟨rfl, by decide, by decide, by rfl⟩

/-- Claim C5 as amended: for every query routed through the external signer
with a verifying certificate, a status different from the literal "replied"
(including an absent status) makes query fail with the distinguished
SignerAgentError; when the status is "replied" the query returns a
successful response whose payload is whatever the reply path holds,
including nothing — an absent reply payload does not cause a failure. -/
theorem claim_C5_status_not_replied (opts : SignerAgentOptions) (ext : Ext) (c : Principal)
    (m : String) (a : Bytes) (s : AgentState) (rb : CallRequest) (cert : Bytes)
    (hroute : routesDelegated opts.delegation c = false)
    (hsig : ext.signerCallCanister c opts.getPrincipal m a = ⟨rb, cert⟩)
    (ht : rb.request_type = "call") (hc : rb.canister_id = c) (hm : rb.method_name = m)
    (ha : rb.arg = a) (hs : rb.sender = opts.getPrincipal)
    (hverify : ext.certVerify cert c = true) :
    (ext.certLookup cert [utf8 "request_status", ext.requestIdOf rb, utf8 "status"]
        ≠ some (utf8 "replied") →
      (query opts ext c m a s).1 = .error .missingReply ∧
      Err.isSignerAgentError .missingReply = true) ∧
    (ext.certLookup cert [utf8 "request_status", ext.requestIdOf rb, utf8 "status"]
        = some (utf8 "replied") →
      (query opts ext c m a s).1
        = .ok { status := "replied",
                replyArg := ext.certLookup cert
                  [utf8 "request_status", ext.requestIdOf rb, utf8 "reply"] }) := by
  have hq := query_signer_resolved opts ext c m a s rb cert hroute hsig ht hc hm ha hs hverify
  constructor
  · intro hne
    rw [if_neg hne] at hq
    exact ⟨by rw [hq], rfl⟩
  · intro heq
    rw [if_pos heq] at hq
    rw [hq]

theorem claim_C5_status_not_replied_witness :
    (query optsNone extNoStatus "canister" "m" [1] emptyState).1 = .error .missingReply ∧
    Err.isSignerAgentError .missingReply = true :=
  (claim_C5_status_not_replied optsNone extNoStatus "canister" "m" [1] emptyState
     ⟨"call", "canister", "m", [1], "caller"⟩ [7]
     (by decide) (by decide) rfl rfl rfl rfl rfl (by decide)).1 (by decide)

/-- Claim C6: a readState whose extracted identifier is currently marked
delegated removes the marker and forwards through the underlying transport
with the re-derived delegated identity of the caller; a second readState
for the same identifier (no certified response cached) fails with the
missing-correlation error. -/
theorem claim_C6_read_state_delegated (opts : SignerAgentOptions) (ext ext2 : Ext)
    (c c2 : Principal) (rid : Bytes) (s : AgentState) (r : Option DelegationIdentity)
    (hmarked : s.delegatedRequestIds rid = true)
    (hnocache : s.readStateResponses rid = none)
    (hdi : (getDelegationIdentity opts ext opts.getPrincipal (removeDelegatedMarker rid s)).1
             = .ok r) :
    readState opts ext c [[utf8 "request_status", rid]] s
      = (.ok (.fromAgent (ext.agentReadState c [[utf8 "request_status", rid]] r)),
         (getDelegationIdentity opts ext opts.getPrincipal (removeDelegatedMarker rid s)).2) ∧
    (readState opts ext c [[utf8 "request_status", rid]] s).2.delegatedRequestIds rid = false ∧
    (readState opts ext2 c2 [[utf8 "request_status", rid]]
        (readState opts ext c [[utf8 "request_status", rid]] s).2).1
      = .error .readStateResponseMissing := by
  have hpaths : requestIdFromReadStateOptions [[utf8 "request_status", rid]] = some rid := by
    simp [requestIdFromReadStateOptions]
  have hpres := getDelegationIdentity_preserves opts ext opts.getPrincipal
    (removeDelegatedMarker rid s)
  rcases hgi : getDelegationIdentity opts ext opts.getPrincipal (removeDelegatedMarker rid s)
    with ⟨rr, s2⟩
  rw [hgi] at hpres hdi
  have hrr : rr = .ok r := hdi
  subst hrr
  have hmark2 : s2.delegatedRequestIds rid = false := by
    rw [congrFun hpres.2 rid]
    simp [removeDelegatedMarker]
  have hcache2 : s2.readStateResponses rid = none := by
    rw [congrFun hpres.1 rid]
    simpa [removeDelegatedMarker] using hnocache
  have h1 : readState opts ext c [[utf8 "request_status", rid]] s
      = (.ok (.fromAgent (ext.agentReadState c [[utf8 "request_status", rid]] r)), s2) := by
    simp [readState, hpaths, hmarked, hgi]
  refine ⟨h1, by rw [h1]; exact hmark2, ?_⟩
  rw [h1]
  simp [readState, hpaths, hmark2, hcache2]

theorem claim_C6_read_state_delegated_witness :
    readState optsNone ext1 "c" [[utf8 "request_status", [5]]]
        (addDelegatedMarker [5] emptyState)
      = (.ok (.fromAgent 0),
         (getDelegationIdentity optsNone ext1 optsNone.getPrincipal
            (removeDelegatedMarker [5] (addDelegatedMarker [5] emptyState))).2) ∧
    (readState optsNone ext1 "c" [[utf8 "request_status", [5]]]
        (addDelegatedMarker [5] emptyState)).2.delegatedRequestIds [5] = false ∧
    (readState optsNone ext1 "c" [[utf8 "request_status", [5]]]
        (readState optsNone ext1 "c" [[utf8 "request_status", [5]]]
          (addDelegatedMarker [5] emptyState)).2).1 = .error .readStateResponseMissing :=
  claim_C6_read_state_delegated optsNone ext1 ext1 "c" "c" [5]
    (addDelegatedMarker [5] emptyState) none (by decide) (by decide) (by rfl)

/-- Claim C8: chain acquisition reuses a cached chain when one is stored
under the lookup key (account, base public key) and its validity predicate
holds against the configured target scope, without touching the signer or
the state; otherwise exactly one new chain is requested from the signer
(the instrumentation counter grows by one), stored under the key derived
from the returned chain (self-authenticating principal of its delegating
key, subject public key of its terminal delegation), and returned. -/
theorem claim_C8_chain_policy (opts : SignerAgentOptions) (ext : Ext) (principal : Principal)
    (publicKey : Bytes) (s : AgentState) :
    (∀ j, s.storage (.delegationChain principal publicKey) = some (.str j) →
       ext.isDelegationValid (ext.chainFromJSON j) (targetsOf opts) = true →
       getDelegationChain opts ext principal publicKey s = (.ok (ext.chainFromJSON j), s)) ∧
    ((s.storage (.delegationChain principal publicKey) = none ∨
      (∃ j, s.storage (.delegationChain principal publicKey) = some (.str j) ∧
        ext.isDelegationValid (ext.chainFromJSON j) (targetsOf opts) = false)) →
      ∀ lastPk,
        (ext.signerGetDelegation principal publicKey (targetsOf opts)).delegationPubkeys.getLast?
            = some lastPk →
        (getDelegationChain opts ext principal publicKey s).1
          = .ok (ext.signerGetDelegation principal publicKey (targetsOf opts)) ∧
        (getDelegationChain opts ext principal publicKey s).2.storage
            (.delegationChain
               (ext.selfAuthenticating
                 (ext.signerGetDelegation principal publicKey (targetsOf opts)).publicKey)
               lastPk)
          = some (.str (ext.chainToJSON
              (ext.signerGetDelegation principal publicKey (targetsOf opts)))) ∧
        (getDelegationChain opts ext principal publicKey s).2.ghostGetDelegationCount
          = s.ghostGetDelegationCount + 1) := by
  constructor
  · intro j hj hv
    simp [getDelegationChain, hj, hv]
  · intro hmiss lastPk hlast
    have hreq : getDelegationChain opts ext principal publicKey s
        = requestNewDelegationChain opts ext principal publicKey s := by
      rcases hmiss with hj | ⟨j, hj, hv⟩
      · simp [getDelegationChain, hj]
      · simp [getDelegationChain, hj, hv]
    rw [hreq]
    simp [requestNewDelegationChain, setDelegationChain, hlast, setStorage, bumpGetDelegation]

theorem claim_C8_chain_policy_witness :
    (getDelegationChain optsNone ext1 "p" [1] emptyState).1
      = .ok { publicKey := [2], delegationPubkeys := [[3]] } ∧
    (getDelegationChain optsNone ext1 "p" [1] emptyState).2.storage
        (.delegationChain "self" [3]) = some (.str "chain") ∧
    (getDelegationChain optsNone ext1 "p" [1] emptyState).2.ghostGetDelegationCount = 1 :=
  (claim_C8_chain_policy optsNone ext1 "p" [1] emptyState).2 (Or.inl rfl) [3] (by decide)

/-! Machinery for the mutual-exclusion invariant: the routing condition
ignores the target, so one fixed configuration sends every call and query
down the same branch, and each branch only ever populates one of the two
request-id collections. -/

lemma signerCallPath_markers (ext : Ext) (target : Principal) (m : String) (a : Bytes)
    (sender : Principal) (s : AgentState) :
    (signerCallPath ext target m a sender s).2.delegatedRequestIds = s.delegatedRequestIds := by
  simp only [signerCallPath]
  split <;> rfl

lemma call_markers_route_false (opts : SignerAgentOptions) (ext : Ext) (c : Principal)
    (m : String) (a : Bytes) (s : AgentState)
    (hroute : routesDelegated opts.delegation c = false) :
    (call opts ext c m a s).2.delegatedRequestIds = s.delegatedRequestIds := by
  simp only [call, hroute, Bool.false_eq_true, if_false]
  exact signerCallPath_markers ext c m a opts.getPrincipal s

lemma signerQueryPath_markers (opts : SignerAgentOptions) (ext : Ext) (c : Principal)
    (m : String) (a : Bytes) (s : AgentState)
    (hroute : routesDelegated opts.delegation c = false) :
    (signerQueryPath opts ext c m a s).2.delegatedRequestIds = s.delegatedRequestIds := by
  simp only [signerQueryPath]
  split
  · rename_i e s1 heq
    have hcm := call_markers_route_false opts ext c m a s hroute
    rw [heq] at hcm
    exact hcm
  · rename_i resp s1 heq
    have hcm := call_markers_route_false opts ext c m a s hroute
    rw [heq] at hcm
    split
    · exact hcm
    · split
      · split
        · exact hcm
        · exact hcm
      · exact hcm

lemma call_cacheEmpty (opts : SignerAgentOptions) (ext : Ext) (c : Principal) (m : String)
    (a : Bytes) (s : AgentState)
    (hroute : cfgRoutesDelegated opts.delegation = true)
    (hce : CacheEmpty s) : CacheEmpty (call opts ext c m a s).2 := by
  have hb : routesDelegated opts.delegation c = true := hroute
  simp only [call, hb, if_true]
  have hpres := getDelegationIdentity_preserves opts ext opts.getPrincipal s
  rcases hgi : getDelegationIdentity opts ext opts.getPrincipal s with ⟨r, s1⟩
  rw [hgi] at hpres
  cases r with
  | error e => exact fun k => (congrFun hpres.1 k).trans (hce k)
  | ok odi =>
    cases odi with
    | some di => exact fun k => (congrFun hpres.1 k).trans (hce k)
    | none =>
      have hnone := getDelegationIdentity_none opts ext opts.getPrincipal s (by rw [hgi])
      rw [hnone] at hroute
      exact absurd hroute (by decide)

lemma call_markersEmpty (opts : SignerAgentOptions) (ext : Ext) (c : Principal) (m : String)
    (a : Bytes) (s : AgentState)
    (hroute : cfgRoutesDelegated opts.delegation = false)
    (hme : MarkersEmpty s) : MarkersEmpty (call opts ext c m a s).2 := by
  have hb : routesDelegated opts.delegation c = false := hroute
  exact fun k => (congrFun (call_markers_route_false opts ext c m a s hb) k).trans (hme k)

lemma query_cacheEmpty (opts : SignerAgentOptions) (ext : Ext) (c : Principal) (m : String)
    (a : Bytes) (s : AgentState)
    (hroute : cfgRoutesDelegated opts.delegation = true)
    (hce : CacheEmpty s) : CacheEmpty (query opts ext c m a s).2 := by
  have hb : routesDelegated opts.delegation c = true := hroute
  simp only [query, hb, if_true]
  have hpres := getDelegationIdentity_preserves opts ext opts.getPrincipal s
  rcases hgi : getDelegationIdentity opts ext opts.getPrincipal s with ⟨r, s1⟩
  rw [hgi] at hpres
  cases r with
  | error e => exact fun k => (congrFun hpres.1 k).trans (hce k)
  | ok odi =>
    cases odi with
    | some di => exact fun k => (congrFun hpres.1 k).trans (hce k)
    | none =>
      have hnone := getDelegationIdentity_none opts ext opts.getPrincipal s (by rw [hgi])
      rw [hnone] at hroute
      exact absurd hroute (by decide)

lemma query_markersEmpty (opts : SignerAgentOptions) (ext : Ext) (c : Principal) (m : String)
    (a : Bytes) (s : AgentState)
    (hroute : cfgRoutesDelegated opts.delegation = false)
    (hme : MarkersEmpty s) : MarkersEmpty (query opts ext c m a s).2 := by
  have hb : routesDelegated opts.delegation c = false := hroute
  simp only [query, hb, Bool.false_eq_true, if_false]
  exact fun k => (congrFun (signerQueryPath_markers opts ext c m a s hb) k).trans (hme k)

lemma readState_cacheEmpty (opts : SignerAgentOptions) (ext : Ext) (c : Principal)
    (paths : List (List Bytes)) (s : AgentState)
    (hce : CacheEmpty s) : CacheEmpty (readState opts ext c paths s).2 := by
  simp only [readState]
  split
  · exact hce
  · rename_i rid heq
    split
    · have hpres := getDelegationIdentity_preserves opts ext opts.getPrincipal
        (removeDelegatedMarker rid s)
      rcases hgi : getDelegationIdentity opts ext opts.getPrincipal (removeDelegatedMarker rid s)
        with ⟨r, s2⟩
      rw [hgi] at hpres
      cases r with
      | error e => exact fun k => (congrFun hpres.1 k).trans (hce k)
      | ok odi => exact fun k => (congrFun hpres.1 k).trans (hce k)
    · split
      · exact hce
      · intro k
        by_cases hk : k = rid <;> simp [dropReadStateResponse, hk, hce k]

lemma readState_markersEmpty (opts : SignerAgentOptions) (ext : Ext) (c : Principal)
    (paths : List (List Bytes)) (s : AgentState)
    (hme : MarkersEmpty s) : MarkersEmpty (readState opts ext c paths s).2 := by
  simp only [readState]
  split
  · exact hme
  · rename_i rid heq
    rw [hme rid]
    simp only [Bool.false_eq_true, if_false]
    split
    · exact hme
    · exact hme

lemma createReadStateRequest_preserves (opts : SignerAgentOptions) (ext : Ext)
    (paths : List (List Bytes)) (s : AgentState) :
    (createReadStateRequest opts ext paths s).2.readStateResponses = s.readStateResponses ∧
    (createReadStateRequest opts ext paths s).2.delegatedRequestIds = s.delegatedRequestIds := by
  simp only [createReadStateRequest]
  split
  · exact ⟨rfl, rfl⟩
  · rename_i rid heq
    split
    · have hpres := getDelegationIdentity_preserves opts ext opts.getPrincipal s
      rcases hgi : getDelegationIdentity opts ext opts.getPrincipal s with ⟨r, s1⟩
      rw [hgi] at hpres
      cases r with
      | error e => exact hpres
      | ok odi => exact hpres
    · exact ⟨rfl, rfl⟩

/-- One public operation preserves the branch-specific emptiness. -/
lemma step_exclusive (opts : SignerAgentOptions) {s s1 : AgentState}
    (hstep : Step opts s s1) :
    (cfgRoutesDelegated opts.delegation = true → CacheEmpty s → CacheEmpty s1) ∧
    (cfgRoutesDelegated opts.delegation = false → MarkersEmpty s → MarkersEmpty s1) := by
  cases hstep with
  | call ext c m a s =>
    exact ⟨fun ht hce => call_cacheEmpty opts ext c m a s ht hce,
           fun hf hme => call_markersEmpty opts ext c m a s hf hme⟩
  | query ext c m a s =>
    exact ⟨fun ht hce => query_cacheEmpty opts ext c m a s ht hce,
           fun hf hme => query_markersEmpty opts ext c m a s hf hme⟩
  | readState ext c paths s =>
    exact ⟨fun _ hce => readState_cacheEmpty opts ext c paths s hce,
           fun _ hme => readState_markersEmpty opts ext c paths s hme⟩
  | createReadStateRequest ext paths s =>
    exact ⟨fun _ hce k => (congrFun (createReadStateRequest_preserves opts ext paths s).1 k).trans
             (hce k),
           fun _ hme k => (congrFun (createReadStateRequest_preserves opts ext paths s).2 k).trans
             (hme k)⟩

/-- The strengthened induction invariant: under a configuration that routes
delegated, the certified-response cache stays empty; under one that routes
through the signer, the delegated-request marker set stays empty. -/
lemma reachable_exclusive (opts : SignerAgentOptions) {s : AgentState}
    (h : Reachable opts s) :
    (cfgRoutesDelegated opts.delegation = true → CacheEmpty s) ∧
    (cfgRoutesDelegated opts.delegation = false → MarkersEmpty s) := by
  induction h with
  | init σ => exact ⟨fun _ k => rfl, fun _ k => rfl⟩
  | step hR hstep ih =>
    exact ⟨fun ht => (step_exclusive opts hstep).1 ht (ih.1 ht),
           fun hf => (step_exclusive opts hstep).2 hf (ih.2 hf)⟩

/-- Claim C9: at every state reachable by any sequence of call, query,
readState and createReadStateRequest operations, a request identifier is a
member of at most one of the certified-response cache and the
delegated-request marker set, never both. -/
theorem claim_C9_mutual_exclusion (opts : SignerAgentOptions) (s : AgentState)
    (h : Reachable opts s) (rid : Bytes) :
    ¬((s.readStateResponses rid).isSome = true ∧ s.delegatedRequestIds rid = true) := by
  rcases reachable_exclusive opts h with ⟨h1, h2⟩
  rintro ⟨hcache, hmark⟩
  cases hb : cfgRoutesDelegated opts.delegation with
  | true =>
    rw [h1 hb rid] at hcache
    simp at hcache
  | false =>
    rw [h2 hb rid] at hmark
    simp at hmark

theorem claim_C9_mutual_exclusion_witness :
    ¬((((call optsNone ext1 "canister" "m" [1] emptyState).2).readStateResponses [9]).isSome
        = true ∧
      ((call optsNone ext1 "canister" "m" [1] emptyState).2).delegatedRequestIds [9] = true) :=
  claim_C9_mutual_exclusion optsNone (call optsNone ext1 "canister" "m" [1] emptyState).2
    (Reachable.step (Reachable.init (fun _ => none))
      (Step.call ext1 "canister" "m" [1] emptyState)) [9]

end SignerJs
